import Mathlib

/-!
Verification of the ocelot-log-service core: token validation and role gating
(`app/api/deps.py`, `app/api/v1/endpoints/stream.py`), the log read path with
its search-index/durable-store split (`app/api/v1/endpoints/logs.py`,
`app/services/opensearch_service.py`), the ingestion worker
(`app/workers/sqs_consumer.py`), retention deletion, and the live fan-out hub
(`app/services/stream_service.py`).

Conventions of the embedding:
* instants in time are `Nat` (seconds); an ISO-8601 UTC string produced by
  `isoformat()` is represented by the instant it denotes (fixed-width ISO
  strings compare lexicographically exactly as their instants compare);
* MongoDB/BSON values keep their type bracket: a `timestamp` field holds
  either a string or a BSON Date, and comparison query operators such as
  `$lt` only match values in the same type bracket;
* each potentially-raising external call (JWT decode, search call, insert)
  is passed in as an explicit outcome argument;
* HTTP rejections are a status code plus detail string.
-/

namespace Ocelot

/-- Model `TokenData` (app/models/token.py): the claims handed to authorization checks. -/
structure TokenData where
  tenant_ids : List String
  roles : List String
deriving Repr, DecidableEq

/-- A token record stored in the jwt collection, as read by `find_one({"jti": jti})`. -/
structure StoredToken where
  jti : String
  tenant_ids : List String
  roles : List String
  revoked : Bool
  expires_at : Option Nat
deriving Repr, DecidableEq

/-- The payload of a successfully decoded JWT (`decode_token`): the claims as signed.
`jti` is optional because `payload.get("jti")` may be absent. -/
structure JwtPayload where
  jti : Option String
  tenant_ids : List String
  roles : List String
deriving Repr, DecidableEq

/-- An HTTP-level rejection (FastAPI `HTTPException`): status code and detail. -/
structure HttpError where
  statusCode : Nat
  detail : String
deriving Repr, DecidableEq

/-- The generic 401 used by `deps.py` for masked failures. -/
def credentialsException : HttpError :=
  ⟨401, "Could not validate credentials"⟩

/-- The jwt collection, with `find_one` on the `jti` key. -/
def jwt_find_one (store : List StoredToken) (jti : String) : Option StoredToken :=
  store.find? (fun t => t.jti == jti)

/-- The body of the `try` block of `validate_token` (deps.py lines 78-116):
decode, require a jti, look the token up, reject revoked, reject store-side
expiry.  `decoded = none` models `decode_token` raising. -/
def validate_token_inner (decoded : Option JwtPayload) (store : List StoredToken)
    (now : Nat) : Except HttpError StoredToken :=
  match decoded with
  | none => .error credentialsException
  | some payload =>
    match payload.jti with
    | none => .error credentialsException
    | some jti =>
      match jwt_find_one store jti with
      | none => .error ⟨401, "Token not found in database"⟩
      | some st =>
        if st.revoked then .error ⟨401, "Token has been revoked"⟩
        else
          match st.expires_at with
          | some exp => if exp < now then .error ⟨401, "Token has expired"⟩ else .ok st
          | none => .ok st

/-- Function `validate_token` (deps.py lines 59-119).  The trailing `except Exception`
catches every exception raised inside the `try` — including the specific
`HTTPException`s for revoked/expired/not-found, which are `Exception`
subclasses — and re-raises the generic credentials exception, so every
failure surfaces with the masked detail. -/
def validate_token (decoded : Option JwtPayload) (store : List StoredToken)
    (now : Nat) : Except HttpError StoredToken :=
  match validate_token_inner decoded store now with
  | .ok st => .ok st
  | .error _ => .error credentialsException

/-- Function `get_current_token` (deps.py lines 122-171): decode, require a jti, look the
token up by jti, and build `TokenData` from the *stored* tenant/role sets.
It never consults the `revoked` flag or the expiry. -/
def get_current_token (decoded : Option JwtPayload) (store : List StoredToken) :
    Except HttpError TokenData :=
  match decoded with
  | none => .error credentialsException
  | some payload =>
    match payload.jti with
    | none => .error credentialsException
    | some jti =>
      match jwt_find_one store jti with
      | none => .error ⟨401, "Token not found in database"⟩
      | some st => .ok ⟨st.tenant_ids, st.roles⟩

/-- Function `check_tenant_access` (deps.py lines 174-186). -/
def check_tenant_access (tenant_id : String) (token_data : TokenData) :
    Except HttpError Bool :=
  if token_data.tenant_ids.isEmpty || !(token_data.tenant_ids.contains tenant_id) then
    .error ⟨403, "Token does not have access to tenant " ++ tenant_id⟩
  else
    .ok true

/-- The inner `_check_roles` of `check_role_permissions` (deps.py lines 189-216):
admin always passes; otherwise some user role must be among the required ones. -/
def check_role_permissions (required_roles : List String) (token_data : TokenData) :
    Except HttpError Bool :=
  let user_roles := token_data.roles
  if user_roles.contains "admin" then .ok true
  else if user_roles.any (fun r => required_roles.contains r) then .ok true
  else
    .error ⟨403, "Insufficient permissions. Required roles: " ++
      String.intercalate ", " required_roles⟩

/-- Binding `require_admin = check_role_permissions(["admin"])` (deps.py line 220). -/
def require_admin : List String := ["admin"]

/-- Binding `require_writer = check_role_permissions(["admin", "writer"])` (deps.py line 221). -/
def require_writer : List String := ["admin", "writer"]

/-- Binding `require_reader = check_role_permissions(["admin", "writer", "reader"])`
(deps.py line 222): note that the role list gating the read endpoints contains
`"writer"`. -/
def require_reader : List String := ["admin", "writer", "reader"]

/-- Python's `str.lower()` as used on role strings (stream.py line 84),
character-wise lowercasing. -/
def pyLower (s : String) : String := ⟨s.data.map Char.toLower⟩

/-- Function `get_token_from_header` (stream.py lines 15-42): decode the bearer token and
build `TokenData` from the *signed payload's* tenant/role sets; no store lookup.
`decoded = none` models a missing/malformed header or a decode failure. -/
def get_token_from_header (decoded : Option JwtPayload) : Option TokenData :=
  match decoded with
  | none => none
  | some payload => some ⟨payload.tenant_ids, payload.roles⟩

/-- Outcome of the WebSocket upgrade gate in `websocket_endpoint`. -/
inductive StreamAdmission where
  | rejected
  | accepted (tenant_id : String) (token_data : TokenData)
deriving Repr, DecidableEq

/-- The admission checks of `websocket_endpoint` (stream.py lines 61-91):
require the `X-Tenant-ID` header, a decodable token, tenant membership in the
payload's tenant set, and a lowercase role among {admin, reader}. -/
def websocket_upgrade_gate (tenant_header : Option String) (decoded : Option JwtPayload) :
    StreamAdmission :=
  match tenant_header with
  | none => .rejected
  | some tenant_id =>
    match get_token_from_header decoded with
    | none => .rejected
    | some token_data =>
      if token_data.tenant_ids.isEmpty || !(token_data.tenant_ids.contains tenant_id) then
        .rejected
      else
        let roles := token_data.roles.map (fun r => pyLower r)
        if roles.any (fun r => r == "admin" || r == "reader") then
          .accepted tenant_id token_data
        else
          .rejected

/-- A value held in a `timestamp` field.  Both forms carry the instant they
denote; `strVal t` is the ISO-8601 string `isoformat()` of instant `t`, and
`dateVal t` is a BSON Date / parsed `datetime` for instant `t`. -/
inductive BsonTime where
  | strVal (t : Nat)
  | dateVal (t : Nat)
deriving Repr, DecidableEq

/-- MongoDB `$lt` on a `timestamp` field: comparison query operators are
type-bracketed, so a string never matches against a Date and vice versa;
within a bracket, fixed-width ISO strings and Dates both order by instant. -/
def bsonLt : BsonTime → BsonTime → Bool
  | .strVal a, .strVal b => a < b
  | .dateVal a, .dateVal b => a < b
  | _, _ => false

/-- MongoDB `$gte` on a `timestamp` field, with the same type bracketing. -/
def bsonGe : BsonTime → BsonTime → Bool
  | .strVal a, .strVal b => b ≤ a
  | .dateVal a, .dateVal b => b ≤ a
  | _, _ => false

/-- MongoDB `$lte` on a `timestamp` field, with the same type bracketing. -/
def bsonLe : BsonTime → BsonTime → Bool
  | .strVal a, .strVal b => a ≤ b
  | .dateVal a, .dateVal b => a ≤ b
  | _, _ => false

/-- The client-settable fields of a log event (`LogCreate` in app/models/log.py).
`user_id` stands for `metadata.user_id`.  `LogCreate` has *no* `timestamp` and
*no* `tenant_id` field: those are server-assigned. -/
structure LogFields where
  action : String
  resource_type : String
  resource_id : String
  severity : String
  message : String
  session_id : Option String
  ip_address : Option String
  request_id : Option String
  user_id : Option String
deriving Repr, DecidableEq

/-- The body of a queue message as built by `produce_log` or read by the worker
(`json.loads(message["Body"])`).  `timestamp` and `tenant_id` are optional
because an arbitrary dequeued payload may lack them. -/
structure MsgBody where
  fields : LogFields
  timestamp : Option BsonTime
  tenant_id : Option String
deriving Repr, DecidableEq

/-- Endpoint `produce_log` (logs.py lines 193-215): the message sent to SQS is the
`LogCreate` dict plus a server-assigned `timestamp = datetime.utcnow().isoformat()`
taken at enqueue time and the `tenant_id` of the authenticated request context. -/
def produce_log (log : LogFields) (tenant_id : String) (now : Nat) : MsgBody :=
  { fields := log
    timestamp := some (.strVal now)
    tenant_id := some tenant_id }

/-- A document in the `logs` collection of MongoDB. -/
structure MongoDoc where
  docId : Nat
  fields : LogFields
  timestamp : Option BsonTime
  tenant_id : String
deriving Repr, DecidableEq

/-- An SQS message as handed to `process_message`; `body = none` models a
`json.loads` failure on `message["Body"]`. -/
structure SqsMessage where
  messageId : String
  receiptHandle : String
  body : Option MsgBody
deriving Repr, DecidableEq

/-- The externally visible effects the worker can perform while processing one
message.  `notifyHub` is in the vocabulary (the Live Fan-out Hub exists in
`stream_service.py`) so that its absence from a trace is expressible. -/
inductive WorkerEffect where
  | insertDoc (d : MongoDoc)
  | insertFailed
  | deleteMessage (receiptHandle : String)
  | notifyHub (tenant : String) (d : MongoDoc)
deriving Repr, DecidableEq

/-- Whether an effect is a fan-out notification. -/
def WorkerEffect.isNotify : WorkerEffect → Bool
  | .notifyHub _ _ => true
  | _ => false

/-- sqs_consumer.py lines 66-68: a string `timestamp` is parsed back into a
`datetime` (`datetime.fromisoformat`) before insert; other values pass through. -/
def parse_timestamp : Option BsonTime → Option BsonTime
  | some (.strVal t) => some (.dateVal t)
  | other => other

/-- Function `process_message` (sqs_consumer.py lines 51-86), returning the Python result
flag together with the ordered trace of effects.  `newId` is the ObjectId the
store would assign; `insertOk = false` models `insert_one` raising.  A parse
failure or a missing `tenant_id` performs no insert and no queue deletion;
the message is deleted only after a successful insert. -/
def process_message (m : SqsMessage) (newId : Nat) (insertOk : Bool) :
    Bool × List WorkerEffect :=
  match m.body with
  | none => (false, [])
  | some body =>
    let ts := parse_timestamp body.timestamp
    match body.tenant_id with
    | none => (false, [])
    | some tenant =>
      if insertOk then
        let d : MongoDoc := ⟨newId, body.fields, ts, tenant⟩
        (true, [.insertDoc d, .deleteMessage m.receiptHandle])
      else
        (false, [.insertFailed])

/-- A document held by the search index.  `index_log` stores `isoformat()`
strings into a field mapped as `date`, so the index orders timestamps by
instant; the document id is the MongoDB id string. -/
structure OsDoc where
  osId : Nat
  fields : LogFields
  timestamp : Nat
  tenant_id : String
deriving Repr, DecidableEq

/-- Model `LogQueryParams` (app/models/log.py): every filter optional, plus pagination. -/
structure LogQueryParams where
  action : Option String := none
  resource_type : Option String := none
  resource_id : Option String := none
  severity : Option String := none
  session_id : Option String := none
  ip_address : Option String := none
  request_id : Option String := none
  user_id : Option String := none
  start_time : Option Nat := none
  end_time : Option Nat := none
  search : Option String := none
  skip : Nat := 0
  limit : Nat := 100
deriving Repr, DecidableEq

/-- Whether a document satisfies the `bool/must` query built by `search_logs`
(opensearch_service.py lines 170-228): a `term` clause on `tenant_id` is always
the first conjunct, followed by the optional term/range clauses.  The relevance
predicate of the `multi_match` full-text clause is the search engine's own and
is taken as a parameter. -/
def os_doc_matches (textMatch : String → OsDoc → Bool) (tenant_id : String)
    (qp : LogQueryParams) (d : OsDoc) : Bool :=
  d.tenant_id == tenant_id
  && (match qp.action with | none => true | some a => d.fields.action == a)
  && (match qp.resource_type with | none => true | some v => d.fields.resource_type == v)
  && (match qp.resource_id with | none => true | some v => d.fields.resource_id == v)
  && (match qp.severity with | none => true | some v => d.fields.severity == v)
  && (match qp.session_id with | none => true | some v => d.fields.session_id == some v)
  && (match qp.ip_address with | none => true | some v => d.fields.ip_address == some v)
  && (match qp.request_id with | none => true | some v => d.fields.request_id == some v)
  && (match qp.user_id with | none => true | some v => d.fields.user_id == some v)
  && (match qp.start_time with | none => true | some s => s ≤ d.timestamp)
  && (match qp.end_time with | none => true | some e => d.timestamp ≤ e)
  && (match qp.search with | none => true | some s => textMatch s d)

/-- The result page assembled by `search_logs` (opensearch_service.py lines
243-265): the `from`/`size` window of the matching documents, the total match
count, and the derived pagination metadata. -/
structure SearchPage where
  data : List OsDoc
  total : Nat
  page : Nat
  size : Nat
deriving Repr, DecidableEq

/-- Function `search_logs` (opensearch_service.py lines 159-268) without the
timestamp-descending sort (a permutation of the matches; which window of them
is returned is irrelevant to the verified tenant-isolation property, membership
in the window is what matters). -/
def os_search_logs (textMatch : String → OsDoc → Bool) (index : List OsDoc)
    (tenant_id : String) (qp : LogQueryParams) : SearchPage :=
  let hits := index.filter (os_doc_matches textMatch tenant_id qp)
  { data := (hits.drop qp.skip).take qp.limit
    total := hits.length
    page := if qp.limit > 0 then qp.skip / qp.limit + 1 else 1
    size := qp.limit }

/-- Function `get_log_by_id` (opensearch_service.py lines 270-300): fetch by document id;
a missing document or *any* raised error yields `None` (the `except` swallows
it); a present document of another tenant also yields `None`. -/
def os_get_log_by_id (index : List OsDoc) (log_id : Nat) (tenant_id : String)
    (raiseErr : Bool) : Option OsDoc :=
  if raiseErr then none
  else
    match index.find? (fun d => d.osId == log_id) with
    | none => none
    | some d => if d.tenant_id == tenant_id then some d else none

/-- Lookup `find_one({"_id": ObjectId(log_id), "tenant_id": tenant_id})` (logs.py line 178). -/
def mongo_find_one_by_id (coll : List MongoDoc) (log_id : Nat) (tenant_id : String) :
    Option MongoDoc :=
  coll.find? (fun d => d.docId == log_id && d.tenant_id == tenant_id)

/-- Outcome of the `get_log` endpoint. -/
inductive GetLogResult where
  | okSearch (d : OsDoc)
  | okStore (d : MongoDoc)
  | httpError (code : Nat) (detail : String)
deriving Repr, DecidableEq

/-- Endpoint `get_log` (logs.py lines 134-190), after the ObjectId validity check: the
search index is consulted first; because `os_get_log_by_id` swallows its own
errors, the endpoint's 500 branch is unreachable on this path, and a `None`
falls back to the tenant-filtered MongoDB lookup, a miss there being 404. -/
def get_log (log_id : Nat) (index : List OsDoc) (raiseErr : Bool)
    (coll : List MongoDoc) (tenant_id : String) : GetLogResult :=
  match os_get_log_by_id index log_id tenant_id raiseErr with
  | some d => .okSearch d
  | none =>
    match mongo_find_one_by_id coll log_id tenant_id with
    | none => .httpError 404 "Log not found"
    | some d => .okStore d

/-- Outcome of the `get_logs` endpoint. -/
inductive GetLogsResult where
  | ok (page : SearchPage)
  | httpError (code : Nat) (detail : String)
deriving Repr, DecidableEq

/-- Endpoint `get_logs` (logs.py lines 25-58): the OpenSearch search is attempted and on
success its page is returned; on *any* exception the endpoint raises
`HTTPException(500, str(e))`.  The MongoDB fallback block (lines 61-131) sits
after that `raise` and is therefore never executed. -/
def get_logs (searchOutcome : Except String SearchPage) : GetLogsResult :=
  match searchOutcome with
  | .ok page => .ok page
  | .error e => .httpError 500 e

/-- Whether a document satisfies the MongoDB filter the fallback block of
`get_logs` builds (logs.py lines 64-106): a `tenant_id` equality plus the
optional field equalities, a `$gte`/`$lte` range on `timestamp` with `datetime`
values, and a `$text` search whose matching is the store's own. -/
def mongo_doc_matches (textMatch : String → MongoDoc → Bool) (tenant_id : String)
    (qp : LogQueryParams) (d : MongoDoc) : Bool :=
  d.tenant_id == tenant_id
  && (match qp.action with | none => true | some a => d.fields.action == a)
  && (match qp.resource_type with | none => true | some v => d.fields.resource_type == v)
  && (match qp.resource_id with | none => true | some v => d.fields.resource_id == v)
  && (match qp.severity with | none => true | some v => d.fields.severity == v)
  && (match qp.session_id with | none => true | some v => d.fields.session_id == some v)
  && (match qp.ip_address with | none => true | some v => d.fields.ip_address == some v)
  && (match qp.request_id with | none => true | some v => d.fields.request_id == some v)
  && (match qp.user_id with | none => true | some v => d.fields.user_id == some v)
  && (match qp.start_time with
      | none => true
      | some s => match d.timestamp with
        | none => false
        | some ts => bsonGe ts (.dateVal s))
  && (match qp.end_time with
      | none => true
      | some e => match d.timestamp with
        | none => false
        | some ts => bsonLe ts (.dateVal e))
  && (match qp.search with | none => true | some s => textMatch s d)

/-- The MongoDB fallback block of `get_logs` (logs.py lines 61-131), translated
for reference even though the preceding `raise` makes it dead code:
`count_documents` on the filter plus the skip/limit window of `find`. -/
def get_logs_mongo_fallback (textMatch : String → MongoDoc → Bool)
    (coll : List MongoDoc) (tenant_id : String) (qp : LogQueryParams) :
    List MongoDoc × Nat :=
  let hits := coll.filter (mongo_doc_matches textMatch tenant_id qp)
  ((hits.drop qp.skip).take qp.limit, hits.length)

/-- The filter `{"tenant_id": tenant_id, "timestamp": {"$lt": cutoff_date.isoformat()}}`
built by the `delete_old_logs` endpoint (logs.py lines 320-324).  Note the
`$lt` operand is the ISO *string* of the cutoff, compared type-bracketed
against whatever the stored `timestamp` holds. -/
def retention_mongo_filter (tenant_id : String) (cutoff : Nat) (d : MongoDoc) : Bool :=
  d.tenant_id == tenant_id
  && (match d.timestamp with
      | none => false
      | some ts => bsonLt ts (.strVal cutoff))

/-- Call `collection.delete_many(query)` for the retention filter: the remaining
collection and the deleted count. -/
def mongo_delete_old_logs (coll : List MongoDoc) (tenant_id : String) (cutoff : Nat) :
    List MongoDoc × Nat :=
  (coll.filter (fun d => !(retention_mongo_filter tenant_id cutoff d)),
   (coll.filter (retention_mongo_filter tenant_id cutoff)).length)

/-- Method `OpenSearchService.delete_old_logs` (opensearch_service.py lines 324-363):
`delete_by_query` with a `term` on `tenant_id` and a `range` `lt` on the
date-mapped `timestamp` field, so it deletes exactly the caller's documents
strictly before the cutoff instant; returns the remaining index and the count. -/
def os_delete_old_logs (index : List OsDoc) (tenant_id : String) (cutoff : Nat) :
    List OsDoc × Nat :=
  (index.filter (fun d => !(d.tenant_id == tenant_id && d.timestamp < cutoff)),
   (index.filter (fun d => d.tenant_id == tenant_id && d.timestamp < cutoff)).length)

/-- The response body of the retention endpoint. -/
structure RetentionReport where
  deleted_count : Nat
  opensearch_deleted : Nat
  opensearch_error : Option String
deriving Repr, DecidableEq

/-- Endpoint `delete_old_logs` (logs.py lines 303-344): compute the cutoff
`utcnow - days`, run the MongoDB `delete_many`, then attempt the index-side
deletion, catching any index error into the separately reported
`opensearch_error` field without touching the MongoDB deletion count.
`osErr = some e` models `OpenSearchService.delete_old_logs` raising. -/
def delete_old_logs_endpoint (days : Nat) (now : Nat) (tenant_id : String)
    (coll : List MongoDoc) (index : List OsDoc) (osErr : Option String) :
    List MongoDoc × List OsDoc × RetentionReport :=
  let cutoff := now - days * 86400
  let mongoRes := mongo_delete_old_logs coll tenant_id cutoff
  match osErr with
  | some e => (mongoRes.1, index, ⟨mongoRes.2, 0, some e⟩)
  | none =>
    let osRes := os_delete_old_logs index tenant_id cutoff
    (mongoRes.1, osRes.1, ⟨mongoRes.2, osRes.2, none⟩)

/-- A live-stream connection handle. -/
structure Conn where
  connId : Nat
deriving Repr, DecidableEq

/-- What one broadcast pass produced: the connections a send was attempted on,
in iteration order; the successful deliveries; and the connections collected as
disconnected during the pass. -/
structure BroadcastResult where
  attempts : List Conn
  delivered : List Conn
  disconnected : List Conn
deriving Repr, DecidableEq

/-- The `for websocket in connections` loop of `broadcast_to_tenant`
(stream_service.py lines 101-106): every connection of the copied set gets a
send attempt; a send that raises (`RuntimeError`, connection closed/broken) is
appended to `disconnected` and the loop continues with the next connection.
`sendOk c = false` models the send to `c` raising. -/
def broadcast_loop (sendOk : Conn → Bool) : List Conn → BroadcastResult
  | [] => ⟨[], [], []⟩
  | c :: rest =>
    let r := broadcast_loop sendOk rest
    if sendOk c then ⟨c :: r.attempts, c :: r.delivered, r.disconnected⟩
    else ⟨c :: r.attempts, r.delivered, c :: r.disconnected⟩

/-- Method `broadcast_to_tenant` (stream_service.py lines 72-112) acting on the
per-tenant connection map (`tenant_connections`; an absent tenant key is the
empty list): if the tenant has no entry, return immediately; otherwise iterate
over a copy of the tenant's set, then — only after the pass completes —
discard the collected disconnected sockets from that tenant's set.  Other
tenants' sets are untouched. -/
def broadcast_to_tenant (hub : String → List Conn) (tenant_id : String)
    (sendOk : Conn → Bool) : (String → List Conn) × BroadcastResult :=
  let conns := hub tenant_id
  match conns with
  | [] => (hub, ⟨[], [], []⟩)
  | _ =>
    let r := broadcast_loop sendOk conns
    (fun t => if t = tenant_id then
        (hub t).filter (fun c => !(r.disconnected.contains c))
      else hub t,
     r)

/-! ### Concrete fixtures used by witnesses and evaluation theorems -/

/-- A representative client log payload. -/
def exFields : LogFields :=
  ⟨"CREATE", "user", "user123", "INFO", "User created", none, none, none, none⟩

/-- A stored token that has been revoked (signed expiry far in the future). -/
def exRevokedStored : StoredToken := ⟨"jti-1", ["T1"], ["reader"], true, some 9999⟩

/-- The signed payload matching `exRevokedStored`. -/
def exPayload : JwtPayload := ⟨some "jti-1", ["T1"], ["reader"]⟩

/-- A stored token whose record grants tenant `T1` only. -/
def c3StoredTok : StoredToken := ⟨"jti-3", ["T1"], ["reader"], false, none⟩

/-- A signed payload for the same jti whose *signed* claims name tenant `T2`. -/
def c3Payload : JwtPayload := ⟨some "jti-3", ["T2"], ["reader"]⟩

/-- A well-formed queue message for tenant `T1`. -/
def exGoodMsg : SqsMessage := ⟨"mid-1", "rh-1", some ⟨exFields, some (.strVal 100), some "T1"⟩⟩

/-- A queue message whose payload lacks `tenant_id`. -/
def exNoTenantMsg : SqsMessage := ⟨"mid-2", "rh-2", some ⟨exFields, some (.strVal 100), none⟩⟩

/-- A worker-ingested `T1` document: Date-typed timestamp at instant 100. -/
def c9OldDoc : MongoDoc := ⟨3, exFields, some (.dateVal 100), "T1"⟩

/-- A recent `T1` document (instant 2000000, at the evaluation time itself). -/
def c9NewDoc : MongoDoc := ⟨4, exFields, some (.dateVal 2000000), "T1"⟩

/-- An old document of another tenant. -/
def c9OtherDoc : MongoDoc := ⟨5, exFields, some (.dateVal 100), "T2"⟩

/-! ### Claim theorems -/

/-- C1: the claim says a search-index error on the list-logs read path is
swallowed and the equivalent tenant-scoped filter is re-executed against the
durable store.  The code instead raises `HTTPException(500, str(e))` the moment
`search_logs` raises, and the MongoDB fallback block after that `raise` — shown
here to return exactly the tenant-scoped durable data the claim promises — is
unreachable.  Get-by-id, by contrast, does fall back, because the service
swallows its own errors and returns `None`. -/
theorem c1_query_index_error_returns_500_without_fallback :
    get_logs (.error "ConnectionError") = .httpError 500 "ConnectionError"
    ∧ get_logs_mongo_fallback (fun _ _ => false)
        [⟨1, exFields, some (.dateVal 50), "T1"⟩] "T1" {} =
        ([⟨1, exFields, some (.dateVal 50), "T1"⟩], 1)
    ∧ get_log 1 [] true [⟨1, exFields, some (.dateVal 50), "T1"⟩] "T1" =
        .okStore ⟨1, exFields, some (.dateVal 50), "T1"⟩ := by
  refine ⟨rfl, rfl, rfl⟩

/-- C2: the claim says a revoked token is rejected with `TokenRevoked` on every
authenticated path before any business logic runs.  `get_current_token` — the
dependency every HTTP endpoint uses — performs no revocation check and returns
the stored claims of the revoked token; the WebSocket upgrade path performs no
store lookup at all and admits it; and even `validate_token`, which does check
the flag, masks the `TokenRevoked` rejection into the generic credentials
error through its blanket `except Exception` (its own unit test asserts the
"Token has been revoked" detail). -/
theorem c2_revoked_token_accepted_on_request_paths :
    get_current_token (some exPayload) [exRevokedStored] = .ok ⟨["T1"], ["reader"]⟩
    ∧ websocket_upgrade_gate (some "T1") (some exPayload) =
        .accepted "T1" ⟨["T1"], ["reader"]⟩
    ∧ exRevokedStored.revoked = true
    ∧ validate_token_inner (some exPayload) [exRevokedStored] 100 =
        .error ⟨401, "Token has been revoked"⟩
    ∧ validate_token (some exPayload) [exRevokedStored] 100 =
        .error credentialsException := by
  refine ⟨rfl, rfl, rfl, rfl, rfl⟩

/-- C4: the claim says a writer-only token is rejected with `RoleForbidden` on
the query and get-by-id operations.  The role list gating those endpoints is
`require_reader = ["admin", "writer", "reader"]`, so a writer-only token
passes the gate (contradicting the endpoints' own docstrings); the
reader-only-cannot-produce half does hold. -/
theorem c4_writer_only_token_passes_read_gate :
    check_role_permissions require_reader ⟨["T1"], ["writer"]⟩ = .ok true
    ∧ check_role_permissions require_writer ⟨["T1"], ["reader"]⟩ =
        .error ⟨403, "Insufficient permissions. Required roles: admin, writer"⟩ := by
  refine ⟨rfl, rfl⟩

/-- C9: the claim says retention removes from the durable store exactly the
caller's events strictly older than the cutoff.  The endpoint's MongoDB filter
compares `timestamp` with `$lt` against the *ISO string* of the cutoff, while
the worker stores `timestamp` as a parsed `datetime` (BSON Date); `$lt` is
type-bracketed, so the filter matches nothing: here an event 16 days older
than a 7-day cutoff survives in the store (`deleted_count = 0`), while the
index-side deletion, whose `range lt` works on the date-mapped field, removes
its mirror (count 1). -/
theorem c9_mongo_retention_deletes_nothing_for_date_timestamps :
    process_message ⟨"m", "rh", some ⟨exFields, some (.strVal 100), some "T1"⟩⟩ 3 true
      = (true, [.insertDoc c9OldDoc, .deleteMessage "rh"])
    ∧ delete_old_logs_endpoint 7 2000000 "T1" [c9OldDoc, c9NewDoc, c9OtherDoc]
        [⟨3, exFields, 100, "T1"⟩] none
      = ([c9OldDoc, c9NewDoc, c9OtherDoc], [], ⟨0, 1, none⟩)
    ∧ 100 < 2000000 - 7 * 86400 := by
  refine ⟨rfl, rfl, by decide⟩

/-- C10 counterexample: the claim says the ingestion timestamp is assigned at
the worker's durable write time, not enqueue time.  Enqueuing the same payload
at instants 100 and 200 stores timestamps 100 and 200 respectively: the stored
timestamp is exactly the enqueue instant chosen by `produce_log`, and
`process_message` takes no write-time input at all. -/
theorem c10_timestamp_is_enqueue_time :
    process_message ⟨"m", "rh", some (produce_log exFields "T1" 100)⟩ 9 true
      = (true, [.insertDoc ⟨9, exFields, some (.dateVal 100), "T1"⟩, .deleteMessage "rh"])
    ∧ process_message ⟨"m", "rh", some (produce_log exFields "T1" 200)⟩ 9 true
      = (true, [.insertDoc ⟨9, exFields, some (.dateVal 200), "T1"⟩, .deleteMessage "rh"])
    ∧ (100 : Nat) ≠ 200 := by
  refine ⟨rfl, rfl, by decide⟩

/-- C10 amended: the ingestion timestamp is server-assigned by the produce
endpoint at enqueue time — the accepted payload (`LogFields`) carries no
timestamp a client could control — and the worker preserves that instant
(string parsed to a Date) into the stored record at write time. -/
theorem c10_amended_timestamp_server_assigned_at_enqueue (log : LogFields)
    (tenant : String) (tEnq : Nat) (mid rh : String) (newId : Nat) :
    (produce_log log tenant tEnq).timestamp = some (.strVal tEnq)
    ∧ process_message ⟨mid, rh, some (produce_log log tenant tEnq)⟩ newId true
      = (true, [.insertDoc ⟨newId, log, some (.dateVal tEnq), tenant⟩,
                .deleteMessage rh]) :=
  ⟨rfl, rfl⟩

/-- C3 counterexample: the claim says every authenticated path — including the
live-stream upgrade — authorizes with the tenant/role sets of the stored token
record.  For a token whose stored record grants only tenant `T1` while its
signed payload names `T2`, the WebSocket upgrade admits the connection for
`T2` using the payload sets; the stored record (which the stream path never
looks up) says otherwise. -/
theorem c3_stream_uses_signed_payload_sets :
    websocket_upgrade_gate (some "T2") (some c3Payload) =
      .accepted "T2" ⟨["T2"], ["reader"]⟩
    ∧ jwt_find_one [c3StoredTok] "jti-3" = some c3StoredTok
    ∧ c3StoredTok.tenant_ids ≠ ["T2"] := by
  refine ⟨rfl, rfl, by decide⟩

/-- C3 amended: on the standard HTTP path the authorization sets are exactly
those of the stored record looked up by jti, but on the live-stream upgrade
they are exactly the sets embedded in the signed JWT payload — the stream path
performs no store lookup. -/
theorem c3_amended_claim_sets_by_path :
    (∀ (p : JwtPayload) (j : String) (st : StoredToken) (store : List StoredToken),
      p.jti = some j → jwt_find_one store j = some st →
      get_current_token (some p) store = .ok ⟨st.tenant_ids, st.roles⟩)
    ∧ (∀ (th : Option String) (p : JwtPayload) (t : String) (td : TokenData),
      websocket_upgrade_gate th (some p) = .accepted t td →
      td = ⟨p.tenant_ids, p.roles⟩) := by
  constructor
  · intro p j st store hj hst
    simp [get_current_token, hj, hst]
  · intro th p t td h
    cases th with
    | none => simp [websocket_upgrade_gate] at h
    | some tenant =>
      simp only [websocket_upgrade_gate, get_token_from_header] at h
      split at h
      · exact absurd h (by simp)
      · split at h
        · injection h with h1 h2
          exact h2.symm
        · exact absurd h (by simp)

/-- C3 amended witness: the concrete token of the counterexample, on both paths. -/
theorem c3_amended_claim_sets_by_path_witness :
    get_current_token (some c3Payload) [c3StoredTok] = .ok ⟨["T1"], ["reader"]⟩
    ∧ (⟨["T2"], ["reader"]⟩ : TokenData) = ⟨c3Payload.tenant_ids, c3Payload.roles⟩ :=
  ⟨c3_amended_claim_sets_by_path.1 c3Payload "jti-3" c3StoredTok [c3StoredTok] rfl rfl,
   c3_amended_claim_sets_by_path.2 (some "T2") c3Payload "T2" ⟨["T2"], ["reader"]⟩ rfl⟩

/-- C6 counterexample: the claim says the ingestion worker notifies the Live
Fan-out Hub after each successful insert.  A successfully processed message's
effect trace contains no `notifyHub` effect at all: `process_message` only
inserts and acknowledges. -/
theorem c6_worker_notifies_nothing :
    (process_message exGoodMsg 7 true).1 = true
    ∧ ((process_message exGoodMsg 7 true).2.any WorkerEffect.isNotify) = false :=
  ⟨rfl, rfl⟩

/-- C6 amended: for every queue message, the worker performs no fan-out
notification at all (so fan-out can never block or fail the ingestion path,
and no event is broadcast by the worker before — or after — its insert), and a
successful run's trace is exactly the insert followed by the acknowledgement. -/
theorem c6_amended_insert_then_ack_never_notify (m : SqsMessage) (newId : Nat)
    (insertOk : Bool) :
    ((process_message m newId insertOk).2.any WorkerEffect.isNotify) = false
    ∧ ((process_message m newId insertOk).1 = true →
        ∃ d, (process_message m newId insertOk).2 =
          [.insertDoc d, .deleteMessage m.receiptHandle]) := by
  obtain ⟨mid, rh, body⟩ := m
  cases body with
  | none => simp [process_message]
  | some b =>
    cases hb : b.tenant_id with
    | none => simp [process_message, hb]
    | some t =>
      cases insertOk with
      | false => simp [process_message, hb, WorkerEffect.isNotify]
      | true =>
        refine ⟨by simp [process_message, hb, WorkerEffect.isNotify], fun _ => ?_⟩
        exact ⟨⟨newId, b.fields, parse_timestamp b.timestamp, t⟩,
          by simp [process_message, hb]⟩

/-- C6 amended witness: the concrete successful message. -/
theorem c6_amended_insert_then_ack_never_notify_witness :
    ((process_message exGoodMsg 7 true).2.any WorkerEffect.isNotify) = false
    ∧ ∃ d, (process_message exGoodMsg 7 true).2 =
        [.insertDoc d, .deleteMessage exGoodMsg.receiptHandle] :=
  ⟨(c6_amended_insert_then_ack_never_notify exGoodMsg 7 true).1,
   (c6_amended_insert_then_ack_never_notify exGoodMsg 7 true).2 rfl⟩

/-- C7: a dequeued payload lacking `tenant_id` is not inserted, no default
tenant is substituted (the run performs no effect at all, leaving the message
un-acknowledged for the queue's redelivery), and in every other case the queue
message is deleted only when the durable insert succeeded, strictly after the
insert in the effect order. -/
theorem c7_missing_tenant_fails_closed_ack_after_insert (m : SqsMessage)
    (newId : Nat) (insertOk : Bool) :
    (∀ body, m.body = some body → body.tenant_id = none →
        process_message m newId insertOk = (false, []))
    ∧ (∀ rh, WorkerEffect.deleteMessage rh ∈ (process_message m newId insertOk).2 →
        insertOk = true ∧ rh = m.receiptHandle ∧
        ∃ d, (process_message m newId insertOk).2 =
          [.insertDoc d, .deleteMessage m.receiptHandle]) := by
  obtain ⟨mid, rh0, body⟩ := m
  cases body with
  | none => exact ⟨fun b hb => by simp at hb, fun rh h => by simp [process_message] at h⟩
  | some b =>
    cases hb : b.tenant_id with
    | none =>
      refine ⟨fun b2 hb2 _ => by simp [process_message, hb], fun rh h => ?_⟩
      simp [process_message, hb] at h
    | some t =>
      refine ⟨fun b2 hb2 hnone => ?_, fun rh h => ?_⟩
      · injection hb2 with hb2
        rw [hb2] at hb
        rw [hb] at hnone
        exact absurd hnone (by simp)
      · cases insertOk with
        | false => simp [process_message, hb] at h
        | true =>
          have htrace : (process_message ⟨mid, rh0, some b⟩ newId true).2 =
              [.insertDoc ⟨newId, b.fields, parse_timestamp b.timestamp, t⟩,
               .deleteMessage rh0] := by
            simp [process_message, hb]
          rw [htrace] at h
          simp at h
          exact ⟨rfl, h, ⟨⟨newId, b.fields, parse_timestamp b.timestamp, t⟩, htrace⟩⟩

/-- C7 witness: the concrete message lacking `tenant_id` performs no effect. -/
theorem c7_missing_tenant_fails_closed_witness :
    process_message exNoTenantMsg 7 true = (false, []) :=
  (c7_missing_tenant_fails_closed_ack_after_insert exNoTenantMsg 7 true).1 _ rfl rfl

/-- The send loop attempts a send on every connection of the copied set, in
order, regardless of failures. -/
theorem broadcast_loop_attempts (sendOk : Conn → Bool) (l : List Conn) :
    (broadcast_loop sendOk l).attempts = l := by
  induction l with
  | nil => rfl
  | cons c rest ih => cases h : sendOk c <;> simp [broadcast_loop, h, ih]

/-- The send loop delivers to exactly the connections whose send succeeds. -/
theorem broadcast_loop_delivered (sendOk : Conn → Bool) (l : List Conn) :
    (broadcast_loop sendOk l).delivered = l.filter sendOk := by
  induction l with
  | nil => rfl
  | cons c rest ih =>
    cases h : sendOk c <;> simp [broadcast_loop, h, ih, List.filter_cons]

/-- The send loop collects as disconnected exactly the connections whose send
fails. -/
theorem broadcast_loop_disconnected (sendOk : Conn → Bool) (l : List Conn) :
    (broadcast_loop sendOk l).disconnected = l.filter (fun c => !(sendOk c)) := by
  induction l with
  | nil => rfl
  | cons c rest ih =>
    cases h : sendOk c <;> simp [broadcast_loop, h, ih, List.filter_cons]

/-- C8: during a broadcast to a tenant, every connection registered under that
tenant receives a send attempt; a connection whose send succeeds is delivered
to even if other sends fail; the tenant's set afterwards is exactly the
survivors (failures are discarded only after the pass, never mid-iteration,
which is what makes every attempt happen); other tenants' sets are untouched. -/
theorem c8_broadcast_attempts_all_removes_after_pass (hub : String → List Conn)
    (tenant_id : String) (sendOk : Conn → Bool) :
    (broadcast_to_tenant hub tenant_id sendOk).2.attempts = hub tenant_id
    ∧ (∀ c, c ∈ hub tenant_id → sendOk c = true →
        c ∈ (broadcast_to_tenant hub tenant_id sendOk).2.delivered)
    ∧ (broadcast_to_tenant hub tenant_id sendOk).1 tenant_id
        = (hub tenant_id).filter sendOk
    ∧ (∀ t, t ≠ tenant_id → (broadcast_to_tenant hub tenant_id sendOk).1 t = hub t) := by
  refine ⟨?_, ?_, ?_, ?_⟩
  · cases hc : hub tenant_id with
    | nil => simp [broadcast_to_tenant, hc]
    | cons c0 cs =>
      simp only [broadcast_to_tenant, hc]
      rw [broadcast_loop_attempts]
  · intro c hcmem hsend
    cases hc : hub tenant_id with
    | nil => rw [hc] at hcmem; exact absurd hcmem (List.not_mem_nil c)
    | cons c0 cs =>
      rw [hc] at hcmem
      simp only [broadcast_to_tenant, hc]
      rw [broadcast_loop_delivered]
      exact List.mem_filter.mpr ⟨hcmem, hsend⟩
  · cases hc : hub tenant_id with
    | nil => simp [broadcast_to_tenant, hc]
    | cons c0 cs =>
      simp only [broadcast_to_tenant, hc, if_true]
      rw [broadcast_loop_disconnected]
      apply List.filter_congr
      intro a ha
      cases hs : sendOk a with
      | true =>
        have hnot : a ∉ (c0 :: cs).filter (fun c => !(sendOk c)) := by
          simp [List.mem_filter, hs]
        simp [hnot]
      | false =>
        have hmem : a ∈ (c0 :: cs).filter (fun c => !(sendOk c)) :=
          List.mem_filter.mpr ⟨ha, by simp [hs]⟩
        simp [hmem]
  · intro t ht
    cases hc : hub tenant_id with
    | nil => simp [broadcast_to_tenant, hc]
    | cons c0 cs =>
      simp only [broadcast_to_tenant, hc]
      simp [ht]

/-- A three-subscriber hub: connections 1, 2, 3 under tenant `A`, connection 4
under tenant `B`. -/
def hubEx : String → List Conn :=
  fun t => if t = "A" then [⟨1⟩, ⟨2⟩, ⟨3⟩] else if t = "B" then [⟨4⟩] else []

/-- Sends to connection 2 fail; all other sends succeed. -/
def sendOkEx : Conn → Bool := fun c => !(c.connId == 2)

/-- C8 witness: broadcasting to tenant `A` with connection 2 broken attempts
all three sends, still delivers to connection 3 (iterated after the failure),
keeps exactly connections 1 and 3, and leaves tenant `B` untouched. -/
theorem c8_broadcast_attempts_all_removes_after_pass_witness :
    (broadcast_to_tenant hubEx "A" sendOkEx).2.attempts = [⟨1⟩, ⟨2⟩, ⟨3⟩]
    ∧ Conn.mk 3 ∈ (broadcast_to_tenant hubEx "A" sendOkEx).2.delivered
    ∧ (broadcast_to_tenant hubEx "A" sendOkEx).1 "A" = [⟨1⟩, ⟨3⟩]
    ∧ (broadcast_to_tenant hubEx "A" sendOkEx).1 "B" = [⟨4⟩] :=
  have h := c8_broadcast_attempts_all_removes_after_pass hubEx "A" sendOkEx
  ⟨h.1.trans (by decide),
   h.2.1 ⟨3⟩ (by decide) (by decide),
   (h.2.2.1).trans (by decide),
   (h.2.2.2 "B" (by decide)).trans (by decide)⟩

/-- C5: tenant isolation on every read/delivery surface.  A get-by-id through
the search index only returns documents of the requesting tenant; a search
query only returns documents of the requesting tenant (its `bool/must` always
carries the tenant term, whatever the full-text relevance predicate does);
the durable-store fallback lookup filters by tenant; when every stored copy of
an id belongs to another tenant, get-by-id answers 404 `Log not found`; and a
broadcast for tenant `t1` only attempts sends on connections registered under
`t1`. -/
theorem c5_tenant_isolation (t1 t2 : String) (hne : t1 ≠ t2) :
    (∀ (index : List OsDoc) (log_id : Nat) (raiseErr : Bool) (d : OsDoc),
      os_get_log_by_id index log_id t2 raiseErr = some d → d.tenant_id ≠ t1)
    ∧ (∀ (textMatch : String → OsDoc → Bool) (index : List OsDoc)
        (qp : LogQueryParams) (d : OsDoc),
      d ∈ (os_search_logs textMatch index t2 qp).data → d.tenant_id ≠ t1)
    ∧ (∀ (coll : List MongoDoc) (log_id : Nat) (d : MongoDoc),
      mongo_find_one_by_id coll log_id t2 = some d → d.tenant_id ≠ t1)
    ∧ (∀ (log_id : Nat) (index : List OsDoc) (raiseErr : Bool) (coll : List MongoDoc),
      (∀ d ∈ index, d.tenant_id = t1) → (∀ d ∈ coll, d.tenant_id = t1) →
      get_log log_id index raiseErr coll t2 = .httpError 404 "Log not found")
    ∧ (∀ (hub : String → List Conn) (sendOk : Conn → Bool) (c : Conn),
      c ∉ hub t1 → c ∉ (broadcast_to_tenant hub t1 sendOk).2.attempts) := by
  refine ⟨?_, ?_, ?_, ?_, ?_⟩
  · intro index log_id raiseErr d h
    unfold os_get_log_by_id at h
    split at h
    · exact absurd h (by simp)
    · cases hfind : index.find? (fun d => d.osId == log_id) with
      | none => rw [hfind] at h; exact absurd h (by simp)
      | some d0 =>
        rw [hfind] at h
        dsimp only at h
        by_cases hten : (d0.tenant_id == t2) = true
        · rw [if_pos hten] at h
          injection h with h
          subst h
          intro hcontra
          exact hne (hcontra ▸ (beq_iff_eq.mp hten))
        · rw [if_neg hten] at h
          exact absurd h (by simp)
  · intro textMatch index qp d hmem
    have hfil : d ∈ index.filter (os_doc_matches textMatch t2 qp) :=
      List.drop_subset _ _ (List.take_subset _ _ hmem)
    have hmatch := (List.mem_filter.mp hfil).2
    unfold os_doc_matches at hmatch
    simp only [Bool.and_eq_true, beq_iff_eq] at hmatch
    intro hcontra
    exact hne (hcontra ▸ hmatch.1.1.1.1.1.1.1.1.1.1.1)
  · intro coll log_id d h
    have hp := List.find?_some h
    simp only [Bool.and_eq_true, beq_iff_eq] at hp
    intro hcontra
    exact hne (hcontra ▸ hp.2)
  · intro log_id index raiseErr coll hidx hcoll
    have hos : os_get_log_by_id index log_id t2 raiseErr = none := by
      unfold os_get_log_by_id
      split
      · rfl
      · cases hfind : index.find? (fun d => d.osId == log_id) with
        | none => rfl
        | some d0 =>
          have ht := hidx d0 (List.mem_of_find?_eq_some hfind)
          have hf : (d0.tenant_id == t2) = false :=
            beq_eq_false_iff_ne.mpr (by rw [ht]; exact hne)
          simp [hf]
    have hm : mongo_find_one_by_id coll log_id t2 = none := by
      unfold mongo_find_one_by_id
      refine List.find?_eq_none.mpr ?_
      intro x hx
      simp only [Bool.and_eq_true, beq_iff_eq, not_and]
      intro _ h2
      exact hne ((hcoll x hx).symm.trans h2)
    unfold get_log
    rw [hos, hm]
  · intro hub sendOk c hc hmem
    cases hcase : hub t1 with
    | nil => simp [broadcast_to_tenant, hcase] at hmem
    | cons c0 cs =>
      simp only [broadcast_to_tenant, hcase] at hmem
      rw [broadcast_loop_attempts] at hmem
      rw [hcase] at hc
      exact hc hmem

/-- C5 witness: a `T1` event looked up by a `T2` reader answers `Log not found`. -/
theorem c5_tenant_isolation_witness :
    ("T1" : String) ≠ "T2"
    ∧ get_log 1 [⟨1, exFields, 50, "T1"⟩] false
        [⟨1, exFields, some (.dateVal 50), "T1"⟩] "T2"
      = .httpError 404 "Log not found" :=
  ⟨by decide,
   (c5_tenant_isolation "T1" "T2" (by decide)).2.2.2.1 1 [⟨1, exFields, 50, "T1"⟩]
     false [⟨1, exFields, some (.dateVal 50), "T1"⟩] (by decide) (by decide)⟩

end Ocelot
